import Mathlib

/-!
# GymTracker — verification of the workout auto-generation core

Shallow embedding of the workout-generation logic of `src/lib/storage.ts`
(generator half) and of the active-session operations of
`src/contexts/WorkoutContext.tsx`.

Randomness: the TypeScript shuffle is `[...l].sort(() => Math.random() - 0.5)`,
whose only guarantee is that the result is some permutation of the input.
Every function that shuffles therefore takes an explicit shuffle oracle
`sh : List ExerciseTemplate → List ExerciseTemplate`; theorems quantify over
all oracles satisfying `IsShuffle` (the result is a permutation of the input),
which covers every possible outcome of the random selection.

Numbers: all quantities involved (set counts, seconds, minutes, exercise
counts) are non-negative integers in every reachable state, so they are
modelled as `Nat`.  The category-quota expressions `Math.ceil(t * 0.5)`,
`Math.ceil(t * 0.35)` and `Math.floor(t * 0.15)` are modelled by their exact
rational values `⌈t/2⌉`, `⌈7t/20⌉`, `⌊3t/20⌋`; for every representable `t`
the double-precision products differ from the exact products by far less
than the distance to the nearest integer crossed, so the rounded results
coincide.
-/

namespace GymTracker

/-- Embeds `MuscleGroup` from `src/types/workout.ts`. -/
inductive MuscleGroup where
  | Chest
  | Back
  | Legs
  | Shoulders
  | Arms
  | Core
  | Other
  deriving DecidableEq

/-- Embeds `ExerciseCategory` from `src/types/workout.ts`. -/
inductive ExerciseCategory where
  | compound
  | isolation
  | finisher
  deriving DecidableEq

/-- Embeds `ExerciseDifficulty` from `src/types/workout.ts`. -/
inductive ExerciseDifficulty where
  | beginner
  | intermediate
  | advanced
  deriving DecidableEq

/-- Embeds `EquipmentType` from `src/types/workout.ts`. -/
inductive EquipmentType where
  | barbell
  | dumbbell
  | cable
  | machine
  | bodyweight
  | resistance_band
  | kettlebell
  | other
  deriving DecidableEq

/-- Embeds `ExerciseTemplate` from `src/types/workout.ts`.  An absent
`secondaryMuscles` array behaves exactly like an empty one in
`filterExercisesByMuscles` (`ex.secondaryMuscles?.some(...)` is falsy),
so it is modelled as a plain list. -/
structure ExerciseTemplate where
  id : String
  title : String
  muscleGroup : MuscleGroup
  secondaryMuscles : List MuscleGroup
  description : String
  category : ExerciseCategory
  difficulty : Option ExerciseDifficulty
  equipment : List EquipmentType
  defaultSets : Nat
  suggestedReps : Option String
  restSeconds : Option Nat
  isCustom : Bool
  deriving DecidableEq

/-- Embeds `WorkoutGenerationPreferences` from `src/types/workout.ts` (the
`availableEquipment` field is never read by the generator). -/
structure WorkoutGenerationPreferences where
  muscleGroups : List MuscleGroup
  durationMinutes : Option Nat
  difficulty : Option ExerciseDifficulty
  exerciseCount : Option Nat
  deriving DecidableEq

/-- Embeds `WorkoutTemplate` from `src/types/workout.ts`. -/
structure WorkoutTemplate where
  id : String
  name : String
  date : String
  muscles : List MuscleGroup
  exercises : List ExerciseTemplate
  defaultRestSeconds : Nat
  estimatedDurationMinutes : Option Nat
  deriving DecidableEq

/-- A shuffle oracle models one outcome of
`[...l].sort(() => Math.random() - 0.5)`: some permutation of its input. -/
def IsShuffle (sh : List ExerciseTemplate → List ExerciseTemplate) : Prop :=
  ∀ l : List ExerciseTemplate, (sh l).Perm l

-- Constants from `storage.ts`
def AVG_TIME_PER_SET_SECONDS : Nat := 40
def AVG_REST_BETWEEN_EXERCISES_SECONDS : Nat := 60

/-- The muscle predicate of `filterExercisesByMuscles`:
primary muscle is in `muscles`, or some secondary muscle is. -/
def musclesMatch (muscles : List MuscleGroup) (ex : ExerciseTemplate) : Bool :=
  muscles.contains ex.muscleGroup ||
    ex.secondaryMuscles.any (fun m => muscles.contains m)

/-- Embeds `filterExercisesByMuscles` from `storage.ts`, with the global
`EXERCISE_DATABASE` passed explicitly as `db`. -/
def filterExercisesByMuscles (db : List ExerciseTemplate)
    (muscles : List MuscleGroup) (category : Option ExerciseCategory) :
    List ExerciseTemplate :=
  db.filter (fun ex =>
    musclesMatch muscles ex &&
      (match category with
       | none => true
       | some c => ex.category == c))

/-- Embeds `selectExercises` from `storage.ts`: drop excluded ids, shuffle
(outcome given by the oracle `sh`), take the first `count`. -/
def selectExercises (sh : List ExerciseTemplate → List ExerciseTemplate)
    (availableExercises : List ExerciseTemplate) (count : Nat)
    (excludeIds : List String) : List ExerciseTemplate :=
  (sh (availableExercises.filter
        (fun ex => !(excludeIds.contains ex.id)))).take count

/-- Embeds `getMuscleCategory` from `storage.ts`. -/
def getMuscleCategory (muscle : MuscleGroup) : String :=
  match muscle with
  | .Chest => "push"
  | .Shoulders => "push"
  | .Back => "pull"
  | .Legs => "legs"
  | .Arms => "push"
  | _ => "other"

/-- JavaScript `Map.set` on an association list: overwrite the value in
place when the key is present, append otherwise. -/
def mapSet (m : List (MuscleGroup × Nat)) (k : MuscleGroup) (v : Nat) :
    List (MuscleGroup × Nat) :=
  if m.any (fun p => p.1 == k) then
    m.map (fun p => if p.1 == k then (k, v) else p)
  else
    m ++ [(k, v)]

/-- JavaScript `Map.get` on an association list. -/
def mapGet (m : List (MuscleGroup × Nat)) (k : MuscleGroup) : Option Nat :=
  (m.find? (fun p => p.1 == k)).map (fun p => p.2)

/-- The non-empty bucket list of `balanceExerciseSelection`:
`[push, pull, legs, other].filter(cat => cat.count > 0)`. -/
def balanceBuckets (muscles : List MuscleGroup) : List (List MuscleGroup) :=
  [muscles.filter (fun m => getMuscleCategory m == "push"),
   muscles.filter (fun m => getMuscleCategory m == "pull"),
   muscles.filter (fun m => getMuscleCategory m == "legs"),
   muscles.filter (fun m => getMuscleCategory m == "other")].filter
    (fun cat => 0 < cat.length)

/-- One bucket pass of `balanceExerciseSelection`: `Map.set` every muscle
of the bucket to the same value `v`. -/
def writeBucket (dist : List (MuscleGroup × Nat)) (cat : List MuscleGroup)
    (v : Nat) : List (MuscleGroup × Nat) :=
  cat.foldl (fun d m => mapSet d m v) dist

/-- The per-muscle value a bucket (`cat`, at position `i` of the non-empty
bucket list) assigns in `balanceExerciseSelection`:
`Math.floor(exercisesPerCategory / cat.count) + (extra / cat.count > 0.5 ? 1 : 0)`
with `extra = index < remainder ? 1 : 0`.  For `extra ∈ {0,1}` and
`cat.count ≥ 1` the real comparison `extra / cat.count > 0.5` is exactly
`2 * extra > cat.count` (no double-rounding issue: `0.5` and the quotients
involved compare exactly). -/
def bucketValue (exercisesPerCategory remainder i catLen : Nat) : Nat :=
  exercisesPerCategory / catLen +
    (if catLen < 2 * (if i < remainder then 1 else 0) then 1 else 0)

/-- Embeds `balanceExerciseSelection` from `storage.ts`. -/
def balanceExerciseSelection (muscles : List MuscleGroup)
    (totalExerciseCount : Nat) : List (MuscleGroup × Nat) :=
  match muscles with
  | [m] => [(m, totalExerciseCount)]
  | _ =>
    let categories := balanceBuckets muscles
    let exercisesPerCategory := totalExerciseCount / categories.length
    let remainder := totalExerciseCount % categories.length
    (categories.enum).foldl
      (fun dist p =>
        writeBucket dist p.2
          (bucketValue exercisesPerCategory remainder p.1 p.2.length))
      []

/-- Embeds `estimateExerciseCount` from `storage.ts`. -/
def estimateExerciseCount (durationMinutes defaultRestSeconds : Nat) : Nat :=
  let durationSeconds := durationMinutes * 60
  let avgExerciseDuration :=
    3 * AVG_TIME_PER_SET_SECONDS + 2 * defaultRestSeconds +
      AVG_REST_BETWEEN_EXERCISES_SECONDS
  let count := durationSeconds / avgExerciseDuration
  max 3 (min 12 count)

/-- Display name of a muscle group (the TypeScript string literal). -/
def muscleName (m : MuscleGroup) : String :=
  match m with
  | .Chest => "Chest"
  | .Back => "Back"
  | .Legs => "Legs"
  | .Shoulders => "Shoulders"
  | .Arms => "Arms"
  | .Core => "Core"
  | .Other => "Other"

/-- Embeds `generateWorkoutName` from `storage.ts`. -/
def generateWorkoutName (muscles : List MuscleGroup) : String :=
  match muscles with
  | [m] => muscleName m ++ " Day"
  | [a, b] => muscleName a ++ " & " ++ muscleName b
  | _ =>
    let hasChest := muscles.contains .Chest
    let hasShoulders := muscles.contains .Shoulders
    let hasArms := muscles.contains .Arms
    let hasBack := muscles.contains .Back
    let hasLegs := muscles.contains .Legs
    if hasChest && hasShoulders && hasArms then "Push Day"
    else if hasBack && hasArms then "Pull Day"
    else if hasLegs then "Leg Day"
    else if hasChest && hasBack then "Upper Body"
    else
      match muscles with
      | a :: b :: _ => muscleName a ++ ", " ++ muscleName b ++ " + More"
      | _ => "Full Body Workout"

/-- The difficulty post-filter predicate of `generateWorkout` step 5:
entries with no recorded difficulty always pass; "beginner" keeps only
beginner entries; "intermediate" keeps everything but advanced;
"advanced" keeps everything. -/
def difficultyAllows (difficulty : ExerciseDifficulty)
    (ex : ExerciseTemplate) : Bool :=
  match ex.difficulty with
  | none => true
  | some d =>
    match difficulty with
    | .beginner => d == .beginner
    | .intermediate => d != .advanced
    | .advanced => true

/-- Embeds `defaultRestSeconds` of `generateWorkout`:
90 when "Legs" is requested, else 60. -/
def gwRestSeconds (prefs : WorkoutGenerationPreferences) : Nat :=
  if prefs.muscleGroups.contains .Legs then 90 else 60

/-- Resolved duration: destructuring default `durationMinutes = 60`. -/
def gwDuration (prefs : WorkoutGenerationPreferences) : Nat :=
  prefs.durationMinutes.getD 60

/-- Embeds `targetExerciseCount`: `exerciseCount || estimateExerciseCount(...)` —
note `||` is a falsiness check, so an explicit count of `0` also falls
back to the estimate. -/
def gwTargetCount (prefs : WorkoutGenerationPreferences) : Nat :=
  match prefs.exerciseCount with
  | some n => if n = 0 then estimateExerciseCount (gwDuration prefs) (gwRestSeconds prefs) else n
  | none => estimateExerciseCount (gwDuration prefs) (gwRestSeconds prefs)

/-- Embeds `compoundCount = Math.ceil(target * 0.5)`. -/
def gwCompoundCount (prefs : WorkoutGenerationPreferences) : Nat :=
  (gwTargetCount prefs + 1) / 2

/-- Embeds `isolationCount = Math.ceil(target * 0.35)`. -/
def gwIsolationCount (prefs : WorkoutGenerationPreferences) : Nat :=
  (7 * gwTargetCount prefs + 19) / 20

/-- Embeds `finisherCount = Math.max(1, Math.floor(target * 0.15))`. -/
def gwFinisherCount (prefs : WorkoutGenerationPreferences) : Nat :=
  max 1 (3 * gwTargetCount prefs / 20)

/-- Step 1 of `generateWorkout`: the selected compound block. -/
def gwCompounds (db : List ExerciseTemplate)
    (sh1 : List ExerciseTemplate → List ExerciseTemplate)
    (prefs : WorkoutGenerationPreferences) : List ExerciseTemplate :=
  selectExercises sh1
    (filterExercisesByMuscles db prefs.muscleGroups (some .compound))
    (gwCompoundCount prefs) []

/-- Step 2 of `generateWorkout`: the selected isolation block
(excluding ids already used by the compound block). -/
def gwIsolations (db : List ExerciseTemplate)
    (sh1 sh2 : List ExerciseTemplate → List ExerciseTemplate)
    (prefs : WorkoutGenerationPreferences) : List ExerciseTemplate :=
  selectExercises sh2
    (filterExercisesByMuscles db prefs.muscleGroups (some .isolation))
    (gwIsolationCount prefs)
    ((gwCompounds db sh1 prefs).map (fun ex => ex.id))

/-- Step 3 of `generateWorkout`: the selected finisher block
(excluding ids used by the compound and isolation blocks). -/
def gwFinishers (db : List ExerciseTemplate)
    (sh1 sh2 sh3 : List ExerciseTemplate → List ExerciseTemplate)
    (prefs : WorkoutGenerationPreferences) : List ExerciseTemplate :=
  selectExercises sh3
    (filterExercisesByMuscles db prefs.muscleGroups (some .finisher))
    (gwFinisherCount prefs)
    ((gwCompounds db sh1 prefs).map (fun ex => ex.id) ++
      (gwIsolations db sh1 sh2 prefs).map (fun ex => ex.id))

/-- Step 4: `orderedExercises = [...compounds, ...isolations, ...finishers]`. -/
def gwOrdered (db : List ExerciseTemplate)
    (sh1 sh2 sh3 : List ExerciseTemplate → List ExerciseTemplate)
    (prefs : WorkoutGenerationPreferences) : List ExerciseTemplate :=
  gwCompounds db sh1 prefs ++ gwIsolations db sh1 sh2 prefs ++
    gwFinishers db sh1 sh2 sh3 prefs

/-- Step 5: the difficulty post-filter (identity when no difficulty
preference was supplied). -/
def gwFiltered (db : List ExerciseTemplate)
    (sh1 sh2 sh3 : List ExerciseTemplate → List ExerciseTemplate)
    (prefs : WorkoutGenerationPreferences) : List ExerciseTemplate :=
  match prefs.difficulty with
  | none => gwOrdered db sh1 sh2 sh3 prefs
  | some d => (gwOrdered db sh1 sh2 sh3 prefs).filter (difficultyAllows d)

/-- Steps 5–7: the final exercise list, with the fallback (select up to 5
from the category-unfiltered, muscle-filtered pool) when the difficulty
filter left nothing. -/
def gwFinal (db : List ExerciseTemplate)
    (sh1 sh2 sh3 shF : List ExerciseTemplate → List ExerciseTemplate)
    (prefs : WorkoutGenerationPreferences) : List ExerciseTemplate :=
  if (gwFiltered db sh1 sh2 sh3 prefs).isEmpty then
    selectExercises shF (filterExercisesByMuscles db prefs.muscleGroups none) 5 []
  else
    gwFiltered db sh1 sh2 sh3 prefs

/-- Embeds `generateWorkout` from `storage.ts`.  `db` is the exercise catalog,
`sh1 sh2 sh3 shF` are the shuffle outcomes of its four `selectExercises`
calls, and `newId`/`newDate` stand for `generateId()` and today's date. -/
def generateWorkout (db : List ExerciseTemplate)
    (sh1 sh2 sh3 shF : List ExerciseTemplate → List ExerciseTemplate)
    (newId newDate : String)
    (prefs : WorkoutGenerationPreferences) : WorkoutTemplate :=
  { id := newId
    name := generateWorkoutName prefs.muscleGroups
    date := newDate
    muscles := prefs.muscleGroups
    exercises := gwFinal db sh1 sh2 sh3 shF prefs
    defaultRestSeconds := gwRestSeconds prefs
    estimatedDurationMinutes := some (gwDuration prefs) }

/-- Rank of a category in the deliberate workout order:
compound, then isolation, then finisher. -/
def categoryRank (c : ExerciseCategory) : Nat :=
  match c with
  | .compound => 0
  | .isolation => 1
  | .finisher => 2

/-- A list is category-grouped when every compound entry precedes every
isolation entry, which precedes every finisher entry: the category ranks
are pairwise non-decreasing along the list. -/
def categoryGrouped (l : List ExerciseTemplate) : Prop :=
  l.Pairwise (fun x y => categoryRank x.category ≤ categoryRank y.category)

instance : DecidablePred categoryGrouped := fun l =>
  List.instDecidablePairwise l

/-! ## Active-session operations (`src/contexts/WorkoutContext.tsx`) -/

/-- Embeds `SetData` from `src/types/workout.ts`. -/
structure SetData where
  setNumber : Nat
  reps : Nat
  weight : Nat
  deriving DecidableEq

/-- Embeds `WorkoutSessionExercise` from `src/types/workout.ts`. -/
structure WorkoutSessionExercise where
  templateId : Option String
  title : String
  muscleGroup : MuscleGroup
  description : String
  sets : List SetData
  completed : Bool
  deriving DecidableEq

/-- Embeds `WorkoutSession` from `src/types/workout.ts` (fields not touched by
the session-editing operations are kept for fidelity). -/
structure WorkoutSession where
  id : String
  templateId : Option String
  name : String
  date : String
  muscles : List MuscleGroup
  exercises : List WorkoutSessionExercise
  defaultRestSeconds : Nat
  startedAt : String
  deriving DecidableEq

/-- In-place update of the element at index `i` (JavaScript array element
assignment: no effect when the index is out of range). -/
def updateAt {α : Type} (i : Nat) (f : α → α) : List α → List α
  | [] => []
  | x :: xs =>
    match i with
    | 0 => f x :: xs
    | n + 1 => x :: updateAt n f xs

/-- Embeds `startWorkout` from `WorkoutContext.tsx`: builds a fresh session from
a template; each exercise gets sets numbered `1..defaultSets` with zero
reps and weight.  `newId`/`date`/`startedAt` stand for `generateId()` and
the current timestamps. -/
def startWorkout (template : WorkoutTemplate) (newId date startedAt : String) :
    WorkoutSession :=
  { id := newId
    templateId := some template.id
    name := template.name
    date := date
    muscles := template.muscles
    exercises := template.exercises.map (fun ex =>
      { templateId := some ex.id
        title := ex.title
        muscleGroup := ex.muscleGroup
        description := ex.description
        sets := (List.range ex.defaultSets).map (fun i =>
          { setNumber := i + 1, reps := 0, weight := 0 })
        completed := false })
    defaultRestSeconds := template.defaultRestSeconds
    startedAt := startedAt }

/-- Embeds `addSet` from `WorkoutContext.tsx`: appends a set numbered
`sets.length + 1`, prefilled from the last set (`lastSet?.reps || 0`). -/
def addSet (session : WorkoutSession) (exerciseIndex : Nat) : WorkoutSession :=
  { session with
    exercises := updateAt exerciseIndex
      (fun ex =>
        { ex with
          sets := ex.sets ++
            [{ setNumber := ex.sets.length + 1
               reps := (ex.sets.getLast?).elim 0 (fun s => s.reps)
               weight := (ex.sets.getLast?).elim 0 (fun s => s.weight) }] })
      session.exercises }

/-- Renumbering pass of `removeSet`: `sets.forEach((set, idx) => set.setNumber = idx + 1)`. -/
def renumberSets (sets : List SetData) : List SetData :=
  sets.enum.map (fun p => { p.2 with setNumber := p.1 + 1 })

/-- Embeds `removeSet` from `WorkoutContext.tsx`: when the exercise has more than
one set, splice out the set at `setIndex` and renumber the remaining sets
consecutively from 1. -/
def removeSet (session : WorkoutSession) (exerciseIndex setIndex : Nat) :
    WorkoutSession :=
  { session with
    exercises := updateAt exerciseIndex
      (fun ex =>
        if 1 < ex.sets.length then
          { ex with sets := renumberSets (ex.sets.eraseIdx setIndex) }
        else ex)
      session.exercises }

/-- The C10 invariant on one exercise: the sets list is non-empty and its
`setNumber` fields are exactly `1..n` in list order. -/
def wellNumbered (sets : List SetData) : Prop :=
  sets ≠ [] ∧ sets.map (fun s => s.setNumber) = (List.range sets.length).map (fun i => i + 1)

instance (sets : List SetData) : Decidable (wellNumbered sets) := by
  unfold wellNumbered; infer_instance

/-- The C10 invariant on a session: every exercise is well numbered. -/
def sessionWellNumbered (session : WorkoutSession) : Prop :=
  ∀ ex ∈ session.exercises, wellNumbered ex.sets

instance (session : WorkoutSession) : Decidable (sessionWellNumbered session) := by
  unfold sessionWellNumbered; infer_instance

/-! ## Specification-side definitions used for refinement comparison -/

/-- The two-level division contract of claim C5, written from the spec's
words (§4.3): classify into push/pull/legs/other buckets, drop empty
buckets, integer-divide `totalCount` across the buckets with the
first-level remainder going to the first buckets in iteration order, then
integer-divide each bucket's share across its member muscle groups. -/
def balanceSpecClaim (muscles : List MuscleGroup) (total : Nat) :
    List (MuscleGroup × Nat) :=
  match muscles with
  | [m] => [(m, total)]
  | _ =>
    let categories := balanceBuckets muscles
    let per := total / categories.length
    let rem := total % categories.length
    (categories.enum).flatMap (fun p =>
      p.2.map (fun m =>
        (m, (per + if p.1 < rem then 1 else 0) / p.2.length)))

/-- What `balanceExerciseSelection` actually computes, written in the
spec's style: each muscle of the bucket at position `i` receives
`⌊⌊total/buckets⌋/bucketSize⌋`, plus one extra unit exactly when `i` is
below the first-level remainder AND the bucket is a singleton (the
remainder never reaches a multi-muscle bucket). -/
def balanceSpecAmended (muscles : List MuscleGroup) (total : Nat) :
    List (MuscleGroup × Nat) :=
  match muscles with
  | [m] => [(m, total)]
  | _ =>
    let categories := balanceBuckets muscles
    let per := total / categories.length
    let rem := total % categories.length
    (categories.enum).flatMap (fun p =>
      p.2.map (fun m =>
        (m, per / p.2.length +
          if p.1 < rem ∧ p.2.length = 1 then 1 else 0)))

/-- First-match lookup over an indexed bucket list: the value attached to
the first bucket containing `m` (proof helper relating the fold of
`balanceExerciseSelection` and the flattened spec form). -/
def lookupBuckets (v : Nat → List MuscleGroup → Nat) (k : Nat)
    (bs : List (List MuscleGroup)) (m : MuscleGroup) : Option Nat :=
  match bs with
  | [] => none
  | cat :: rest =>
    if m ∈ cat then some (v k cat) else lookupBuckets v (k + 1) rest m

/-! ## Concrete fixtures for witnesses and counterexamples -/

/-- Builds a catalog record with the given id, primary muscle, category
and difficulty (remaining fields neutral). -/
def mkEx (id : String) (mg : MuscleGroup) (cat : ExerciseCategory)
    (diff : Option ExerciseDifficulty) : ExerciseTemplate :=
  { id := id, title := id, muscleGroup := mg, secondaryMuscles := [],
    description := "", category := cat, difficulty := diff, equipment := [],
    defaultSets := 3, suggestedReps := none, restSeconds := none,
    isCustom := false }

/-- The identity shuffle outcome (the permutation that leaves the list
as is). -/
def idShuffle : List ExerciseTemplate → List ExerciseTemplate := fun l => l

/-- Catalog for the C2 counterexample: an isolation exercise listed
before a compound one, both advanced-difficulty Chest exercises. -/
def dbC2 : List ExerciseTemplate :=
  [mkEx "iso1" .Chest .isolation (some .advanced),
   mkEx "comp1" .Chest .compound (some .advanced)]

/-- Preferences for the C2 counterexample: beginner difficulty empties
the difficulty filter and triggers the fallback. -/
def prefsC2 : WorkoutGenerationPreferences :=
  { muscleGroups := [.Chest], durationMinutes := none,
    difficulty := some .beginner, exerciseCount := some 2 }

/-- Catalog for the C9 counterexample: two Chest compounds, nothing for
Back. -/
def dbC9 : List ExerciseTemplate :=
  [mkEx "c1" .Chest .compound none, mkEx "c2" .Chest .compound none]

/-- Preferences for the C9 counterexample. -/
def prefsC9 : WorkoutGenerationPreferences :=
  { muscleGroups := [.Chest, .Back], durationMinutes := none,
    difficulty := none, exerciseCount := some 4 }

/-- One-compound catalog used by several witnesses. -/
def dbW : List ExerciseTemplate :=
  [mkEx "w1" .Chest .compound none]

/-- Simple single-muscle preferences used by several witnesses. -/
def prefsW : WorkoutGenerationPreferences :=
  { muscleGroups := [.Chest], durationMinutes := some 30,
    difficulty := none, exerciseCount := none }

/-- A three-element pool of pairwise distinct records, used to refute the
uniform-shuffle part of claim C8. -/
def exercisePool3 : List ExerciseTemplate :=
  [mkEx "p1" .Chest .compound none,
   mkEx "p2" .Chest .isolation none,
   mkEx "p3" .Chest .finisher none]

/-- Template used by the C10 witness. -/
def tmplW : WorkoutTemplate :=
  { id := "t", name := "T", date := "d", muscles := [.Chest],
    exercises := [mkEx "c1" .Chest .compound none],
    defaultRestSeconds := 60, estimatedDurationMinutes := none }

/-! ## Helper lemmas -/

theorem isShuffle_idShuffle : IsShuffle idShuffle :=
  fun l => List.Perm.refl l

theorem mem_selectExercises
    {sh : List ExerciseTemplate → List ExerciseTemplate}
    (hsh : IsShuffle sh) {pool : List ExerciseTemplate} {count : Nat}
    {excl : List String} {x : ExerciseTemplate}
    (hx : x ∈ selectExercises sh pool count excl) :
    x ∈ pool ∧ excl.contains x.id = false := by
  have h1 : x ∈ sh (pool.filter (fun ex => !(excl.contains ex.id))) :=
    List.mem_of_mem_take hx
  have h2 : x ∈ pool.filter (fun ex => !(excl.contains ex.id)) :=
    (hsh _).mem_iff.mp h1
  have h3 := List.mem_filter.mp h2
  exact ⟨h3.1, by simpa using h3.2⟩

theorem length_selectExercises
    {sh : List ExerciseTemplate → List ExerciseTemplate}
    (hsh : IsShuffle sh) (pool : List ExerciseTemplate) (count : Nat)
    (excl : List String) :
    (selectExercises sh pool count excl).length =
      min count (pool.filter (fun ex => !(excl.contains ex.id))).length := by
  unfold selectExercises
  rw [List.length_take, (hsh _).length_eq]

theorem mem_filterExercisesByMuscles
    {db : List ExerciseTemplate} {muscles : List MuscleGroup}
    {category : Option ExerciseCategory} {x : ExerciseTemplate}
    (hx : x ∈ filterExercisesByMuscles db muscles category) :
    x ∈ db ∧ musclesMatch muscles x = true ∧
      (∀ c, category = some c → x.category = c) := by
  have h := List.mem_filter.mp hx
  refine ⟨h.1, ?_, ?_⟩
  · have := h.2
    cases category <;> simp_all
  · intro c hc
    subst hc
    have := h.2
    simp_all

/-! ## Claims -/

/-- C7: for every fixed `restSeconds`, `estimateExerciseCount` is
monotonically non-decreasing in `durationMinutes`, and for every
`durationMinutes` and `restSeconds` its result lies in `[3, 12]`. -/
theorem estimateExerciseCount_monotone_and_range :
    (∀ rest d₁ d₂, d₁ ≤ d₂ →
      estimateExerciseCount d₁ rest ≤ estimateExerciseCount d₂ rest) ∧
    (∀ d rest,
      3 ≤ estimateExerciseCount d rest ∧ estimateExerciseCount d rest ≤ 12) := by
  constructor
  · intro rest d₁ d₂ h
    unfold estimateExerciseCount
    exact max_le_max (le_refl 3)
      (min_le_min (le_refl 12)
        (Nat.div_le_div_right (Nat.mul_le_mul_right 60 h)))
  · intro d rest
    unfold estimateExerciseCount
    exact ⟨le_max_left 3 _, max_le (by norm_num) (min_le_left 12 _)⟩

/-- Witness for C7 at concrete inputs. -/
theorem estimateExerciseCount_monotone_and_range_witness :
    estimateExerciseCount 30 60 ≤ estimateExerciseCount 60 60 ∧
    3 ≤ estimateExerciseCount 45 90 ∧ estimateExerciseCount 45 90 ≤ 12 :=
  ⟨estimateExerciseCount_monotone_and_range.1 60 30 60 (by decide),
   (estimateExerciseCount_monotone_and_range.2 45 90).1,
   (estimateExerciseCount_monotone_and_range.2 45 90).2⟩

/-- C6 counterexample: the spec scenarios fail on the code — a
two-element input hits the two-muscle branch, so
`nameFor(["Back","Arms"])` is "Back & Arms" (not "Pull Day") and
`nameFor(["Chest","Back"])` is "Chest & Back" (not "Upper Body"). -/
theorem generateWorkoutName_scenarios_counterexample :
    ¬ (generateWorkoutName [.Back, .Arms] = "Pull Day" ∧
       generateWorkoutName [.Chest] = "Chest Day" ∧
       generateWorkoutName [.Chest, .Back] = "Upper Body") := by
  decide

/-- C6 amended: two-element inputs follow the `"<A> & <B>"` rule;
"Pull Day" and "Upper Body" require the combination plus at least a third
muscle (the priority rule applies only to three or more muscles);
`nameFor(["Chest"])` is "Chest Day" as claimed. -/
theorem generateWorkoutName_scenarios_amended :
    generateWorkoutName [.Back, .Arms] = "Back & Arms" ∧
    generateWorkoutName [.Back, .Arms, .Core] = "Pull Day" ∧
    generateWorkoutName [.Chest] = "Chest Day" ∧
    generateWorkoutName [.Chest, .Back] = "Chest & Back" ∧
    generateWorkoutName [.Chest, .Back, .Core] = "Upper Body" := by
  decide

theorem mem_updateAt {α : Type} {i : Nat} {f : α → α} {l : List α} {x : α}
    (hx : x ∈ updateAt i f l) : (∃ y ∈ l, x = f y) ∨ x ∈ l := by
  induction l generalizing i with
  | nil => simp [updateAt] at hx
  | cons a as ih =>
    cases i with
    | zero =>
      simp only [updateAt, List.mem_cons] at hx
      rcases hx with h | h
      · exact Or.inl ⟨a, List.mem_cons_self a as, h⟩
      · exact Or.inr (List.mem_cons_of_mem a h)
    | succ n =>
      simp only [updateAt, List.mem_cons] at hx
      rcases hx with h | h
      · exact Or.inr (h ▸ List.mem_cons_self a as)
      · rcases ih h with ⟨y, hy, hxy⟩ | h2
        · exact Or.inl ⟨y, List.mem_cons_of_mem a hy, hxy⟩
        · exact Or.inr (List.mem_cons_of_mem a h2)

theorem wellNumbered_append {sets : List SetData} (h : wellNumbered sets)
    (r w : Nat) :
    wellNumbered
      (sets ++ [{ setNumber := sets.length + 1, reps := r, weight := w }]) := by
  constructor
  · simp
  · rw [List.map_append, h.2, List.length_append]
    simp [List.range_succ]

theorem wellNumbered_renumber {l : List SetData} (h : l ≠ []) :
    wellNumbered (renumberSets l) := by
  have hlen : (renumberSets l).length = l.length := by
    simp [renumberSets]
  constructor
  · apply List.ne_nil_of_length_pos
    rw [hlen]
    exact List.length_pos.mpr h
  · rw [hlen]
    unfold renumberSets
    rw [List.map_map]
    have : ((fun s : SetData => s.setNumber) ∘
        fun p : Nat × SetData => { p.2 with setNumber := p.1 + 1 }) =
        (fun i => i + 1) ∘ Prod.fst := rfl
    rw [this, ← List.map_map, List.enum_map_fst]

/-- C10: a session started from a template whose exercises all have at
least one default set has every exercise's sets numbered exactly `1..n`
in list order, and both `addSet` (appends a set numbered `length + 1`)
and `removeSet` (erases only when more than one set exists, then
renumbers from 1) preserve this invariant. -/
theorem session_wellNumbered_invariant :
    (∀ (template : WorkoutTemplate) (newId date startedAt : String),
      (∀ ex ∈ template.exercises, 1 ≤ ex.defaultSets) →
      sessionWellNumbered (startWorkout template newId date startedAt)) ∧
    (∀ (s : WorkoutSession) (i : Nat),
      sessionWellNumbered s → sessionWellNumbered (addSet s i)) ∧
    (∀ (s : WorkoutSession) (i j : Nat),
      sessionWellNumbered s → sessionWellNumbered (removeSet s i j)) := by
  refine ⟨?_, ?_, ?_⟩
  · intro t newId date startedAt h ex hex
    simp only [startWorkout, List.mem_map] at hex
    obtain ⟨e, he, rfl⟩ := hex
    constructor
    · apply List.ne_nil_of_length_pos
      simp only [List.length_map, List.length_range]
      exact h e he
    · simp only [List.map_map, List.length_map, List.length_range]
      rfl
  · intro s i hs ex hex
    simp only [addSet] at hex
    rcases mem_updateAt hex with ⟨y, hy, rfl⟩ | hmem
    · exact wellNumbered_append (hs y hy) _ _
    · exact hs ex hmem
  · intro s i j hs ex hex
    simp only [removeSet] at hex
    rcases mem_updateAt hex with ⟨y, hy, rfl⟩ | hmem
    · have hwn := hs y hy
      by_cases hlen : 1 < y.sets.length
      · simp only [hlen, if_true]
        apply wellNumbered_renumber
        apply List.ne_nil_of_length_pos
        rw [List.length_eraseIdx]
        by_cases hj : j < y.sets.length <;> simp [hj] <;> omega
      · simp only [hlen, if_false]
        exact hwn
    · exact hs ex hmem

/-- Witness for C10 on a concrete template and concrete operations. -/
theorem session_wellNumbered_invariant_witness :
    sessionWellNumbered (startWorkout tmplW "i" "d" "s") ∧
    sessionWellNumbered (addSet (startWorkout tmplW "i" "d" "s") 0) ∧
    sessionWellNumbered (removeSet (addSet (startWorkout tmplW "i" "d" "s") 0) 0 1) :=
  have h0 : sessionWellNumbered (startWorkout tmplW "i" "d" "s") :=
    session_wellNumbered_invariant.1 tmplW "i" "d" "s" (by decide)
  ⟨h0, session_wellNumbered_invariant.2.1 _ 0 h0,
    session_wellNumbered_invariant.2.2 _ 0 1
      (session_wellNumbered_invariant.2.1 _ 0 h0)⟩

theorem category_of_mem_gwCompounds
    {db : List ExerciseTemplate}
    {sh1 : List ExerciseTemplate → List ExerciseTemplate}
    {prefs : WorkoutGenerationPreferences} (h1 : IsShuffle sh1)
    {x : ExerciseTemplate} (hx : x ∈ gwCompounds db sh1 prefs) :
    x.category = .compound :=
  (mem_filterExercisesByMuscles (mem_selectExercises h1 hx).1).2.2 _ rfl

theorem category_of_mem_gwIsolations
    {db : List ExerciseTemplate}
    {sh1 sh2 : List ExerciseTemplate → List ExerciseTemplate}
    {prefs : WorkoutGenerationPreferences} (h2 : IsShuffle sh2)
    {x : ExerciseTemplate} (hx : x ∈ gwIsolations db sh1 sh2 prefs) :
    x.category = .isolation :=
  (mem_filterExercisesByMuscles (mem_selectExercises h2 hx).1).2.2 _ rfl

theorem category_of_mem_gwFinishers
    {db : List ExerciseTemplate}
    {sh1 sh2 sh3 : List ExerciseTemplate → List ExerciseTemplate}
    {prefs : WorkoutGenerationPreferences} (h3 : IsShuffle sh3)
    {x : ExerciseTemplate} (hx : x ∈ gwFinishers db sh1 sh2 sh3 prefs) :
    x.category = .finisher :=
  (mem_filterExercisesByMuscles (mem_selectExercises h3 hx).1).2.2 _ rfl

/-- C2 counterexample: on the fallback path the claim fails.  With
catalog `dbC2` (an isolation exercise listed before a compound one, both
advanced) and beginner-difficulty preferences, the difficulty filter
empties the plan, the fallback selects from the category-unfiltered pool,
and the identity-permutation outcome returns the isolation exercise
before the compound one. -/
theorem generateWorkout_categoryGrouped_counterexample :
    ¬ categoryGrouped
        ((generateWorkout dbC2 idShuffle idShuffle idShuffle idShuffle
            "i" "d" prefsC2).exercises) := by
  decide

/-- C2 amended: the plan's exercise list groups all compound entries
before all isolation entries before all finisher entries on every outcome
in which the fallback of step 7 is NOT taken (i.e. the difficulty-filtered
concatenation is non-empty); the fallback path draws from the
category-unfiltered pool and gives no ordering guarantee. -/
theorem generateWorkout_categoryGrouped_amended
    (db : List ExerciseTemplate)
    (sh1 sh2 sh3 shF : List ExerciseTemplate → List ExerciseTemplate)
    (newId newDate : String) (prefs : WorkoutGenerationPreferences)
    (h1 : IsShuffle sh1) (h2 : IsShuffle sh2) (h3 : IsShuffle sh3)
    (hnf : gwFiltered db sh1 sh2 sh3 prefs ≠ []) :
    categoryGrouped
      ((generateWorkout db sh1 sh2 sh3 shF newId newDate prefs).exercises) := by
  have hords : categoryGrouped (gwOrdered db sh1 sh2 sh3 prefs) := by
    unfold categoryGrouped gwOrdered
    rw [List.append_assoc, List.pairwise_append]
    refine ⟨?_, ?_, ?_⟩
    · apply List.pairwise_of_forall_mem_list
      intro a ha b hb
      rw [category_of_mem_gwCompounds h1 ha, category_of_mem_gwCompounds h1 hb]
    · rw [List.pairwise_append]
      refine ⟨?_, ?_, ?_⟩
      · apply List.pairwise_of_forall_mem_list
        intro a ha b hb
        rw [category_of_mem_gwIsolations h2 ha,
          category_of_mem_gwIsolations h2 hb]
      · apply List.pairwise_of_forall_mem_list
        intro a ha b hb
        rw [category_of_mem_gwFinishers h3 ha,
          category_of_mem_gwFinishers h3 hb]
      · intro a ha b hb
        rw [category_of_mem_gwIsolations h2 ha,
          category_of_mem_gwFinishers h3 hb]
        exact Nat.le_succ 1
    · intro a ha b hb
      rw [category_of_mem_gwCompounds h1 ha]
      exact Nat.zero_le _
  have hfil : categoryGrouped (gwFiltered db sh1 sh2 sh3 prefs) := by
    unfold gwFiltered
    cases prefs.difficulty with
    | none => exact hords
    | some d =>
      exact List.Pairwise.sublist (List.filter_sublist _) hords
  have hfin : (generateWorkout db sh1 sh2 sh3 shF newId newDate prefs).exercises
      = gwFiltered db sh1 sh2 sh3 prefs := by
    show gwFinal db sh1 sh2 sh3 shF prefs = gwFiltered db sh1 sh2 sh3 prefs
    unfold gwFinal
    rw [if_neg (by simpa [List.isEmpty_iff] using hnf)]
  rw [hfin]
  exact hfil

/-- Witness for the amended C2 on a concrete non-fallback run. -/
theorem generateWorkout_categoryGrouped_amended_witness :
    categoryGrouped
      ((generateWorkout dbW idShuffle idShuffle idShuffle idShuffle
          "i" "d" prefsW).exercises) :=
  generateWorkout_categoryGrouped_amended dbW idShuffle idShuffle idShuffle
    idShuffle "i" "d" prefsW isShuffle_idShuffle isShuffle_idShuffle
    isShuffle_idShuffle (by decide)

theorem filter_exclude_nil (pool : List ExerciseTemplate) :
    pool.filter (fun ex => !(List.contains ([] : List String) ex.id)) = pool :=
  List.filter_eq_self.mpr (fun _ _ => rfl)

theorem mem_gwFinal_musclesMatch
    {db : List ExerciseTemplate}
    {sh1 sh2 sh3 shF : List ExerciseTemplate → List ExerciseTemplate}
    {prefs : WorkoutGenerationPreferences}
    (h1 : IsShuffle sh1) (h2 : IsShuffle sh2) (h3 : IsShuffle sh3)
    (hF : IsShuffle shF) {x : ExerciseTemplate}
    (hx : x ∈ gwFinal db sh1 sh2 sh3 shF prefs) :
    musclesMatch prefs.muscleGroups x = true := by
  unfold gwFinal at hx
  by_cases he : (gwFiltered db sh1 sh2 sh3 prefs).isEmpty
  · rw [if_pos he] at hx
    exact (mem_filterExercisesByMuscles (mem_selectExercises hF hx).1).2.1
  · rw [if_neg he] at hx
    have hx2 : x ∈ gwOrdered db sh1 sh2 sh3 prefs := by
      unfold gwFiltered at hx
      rcases hD : prefs.difficulty with _ | d
      · rw [hD] at hx
        exact hx
      · rw [hD] at hx
        exact List.mem_of_mem_filter hx
    unfold gwOrdered at hx2
    rcases List.mem_append.mp hx2 with hx3 | hc
    · rcases List.mem_append.mp hx3 with ha | hb
      · exact (mem_filterExercisesByMuscles (mem_selectExercises h1 ha).1).2.1
      · exact (mem_filterExercisesByMuscles (mem_selectExercises h2 hb).1).2.1
    · exact (mem_filterExercisesByMuscles (mem_selectExercises h3 hc).1).2.1

/-- C4: for non-empty requested muscle groups, every exercise of the
returned plan has its primary muscle group among the requested groups or
some secondary muscle group among them — on both the normal and the
fallback path, for every outcome of the random selection. -/
theorem generateWorkout_muscles_respected
    (db : List ExerciseTemplate)
    (sh1 sh2 sh3 shF : List ExerciseTemplate → List ExerciseTemplate)
    (newId newDate : String) (prefs : WorkoutGenerationPreferences)
    (h1 : IsShuffle sh1) (h2 : IsShuffle sh2) (h3 : IsShuffle sh3)
    (hF : IsShuffle shF) (hne : prefs.muscleGroups ≠ []) :
    ∀ ex ∈ (generateWorkout db sh1 sh2 sh3 shF newId newDate prefs).exercises,
      ex.muscleGroup ∈ prefs.muscleGroups ∨
        ∃ m ∈ ex.secondaryMuscles, m ∈ prefs.muscleGroups := by
  intro ex hex
  have h := mem_gwFinal_musclesMatch h1 h2 h3 hF hex
  simpa [musclesMatch] using h

/-- Witness for C4 on a concrete catalog and preferences. -/
theorem generateWorkout_muscles_respected_witness :
    (mkEx "w1" .Chest .compound none).muscleGroup ∈ prefsW.muscleGroups ∨
      ∃ m ∈ (mkEx "w1" .Chest .compound none).secondaryMuscles,
        m ∈ prefsW.muscleGroups :=
  generateWorkout_muscles_respected dbW idShuffle idShuffle idShuffle
    idShuffle "i" "d" prefsW isShuffle_idShuffle isShuffle_idShuffle
    isShuffle_idShuffle isShuffle_idShuffle (by decide)
    (mkEx "w1" .Chest .compound none) (by decide)

/-- C1: for non-empty requested muscle groups and any duration of at
least one minute, the generated plan has at least one exercise on every
outcome, provided the catalog contains at least one exercise whose
primary or secondary muscles intersect the requested groups (the step 7
fallback guarantee). -/
theorem generateWorkout_nonempty
    (db : List ExerciseTemplate)
    (sh1 sh2 sh3 shF : List ExerciseTemplate → List ExerciseTemplate)
    (newId newDate : String) (prefs : WorkoutGenerationPreferences)
    (h1 : IsShuffle sh1) (h2 : IsShuffle sh2) (h3 : IsShuffle sh3)
    (hF : IsShuffle shF) (hne : prefs.muscleGroups ≠ [])
    (hd : 1 ≤ gwDuration prefs)
    (hmatch : ∃ ex ∈ db, musclesMatch prefs.muscleGroups ex = true) :
    (generateWorkout db sh1 sh2 sh3 shF newId newDate prefs).exercises ≠ [] := by
  show gwFinal db sh1 sh2 sh3 shF prefs ≠ []
  unfold gwFinal
  by_cases he : (gwFiltered db sh1 sh2 sh3 prefs).isEmpty
  · rw [if_pos he]
    apply List.ne_nil_of_length_pos
    rw [length_selectExercises hF, filter_exclude_nil]
    obtain ⟨ex, hex, hm⟩ := hmatch
    have hmem : ex ∈ filterExercisesByMuscles db prefs.muscleGroups none :=
      List.mem_filter.mpr ⟨hex, by simp [hm]⟩
    have hpos : 0 < (filterExercisesByMuscles db prefs.muscleGroups none).length :=
      List.length_pos.mpr (List.ne_nil_of_mem hmem)
    exact Nat.lt_min.mpr ⟨by norm_num, hpos⟩
  · rw [if_neg he]
    intro hcon
    exact he (by simp [hcon])

/-- Witness for C1 on a concrete catalog and preferences. -/
theorem generateWorkout_nonempty_witness :
    (generateWorkout dbW idShuffle idShuffle idShuffle idShuffle
        "i" "d" prefsW).exercises ≠ [] :=
  generateWorkout_nonempty dbW idShuffle idShuffle idShuffle idShuffle
    "i" "d" prefsW isShuffle_idShuffle isShuffle_idShuffle
    isShuffle_idShuffle isShuffle_idShuffle (by decide) (by decide) (by decide)

theorem not_mem_of_contains_eq_false {l : List String} {a : String}
    (h : l.contains a = false) : a ∉ l := by
  intro hmem
  simp_all

theorem id_not_used_of_mem_select
    {sh : List ExerciseTemplate → List ExerciseTemplate}
    {pool : List ExerciseTemplate} {count : Nat} {excl : List String}
    {x : ExerciseTemplate} (hsh : IsShuffle sh)
    (hx : x ∈ selectExercises sh pool count excl) : x.id ∉ excl :=
  not_mem_of_contains_eq_false (mem_selectExercises hsh hx).2

theorem ids_nodup_filterExercisesByMuscles
    {db : List ExerciseTemplate}
    (hdb : (db.map (fun ex => ex.id)).Nodup)
    (muscles : List MuscleGroup) (category : Option ExerciseCategory) :
    ((filterExercisesByMuscles db muscles category).map (fun ex => ex.id)).Nodup :=
  hdb.sublist ((List.filter_sublist db).map _)

theorem ids_nodup_selectExercises
    {sh : List ExerciseTemplate → List ExerciseTemplate}
    {pool : List ExerciseTemplate} (hsh : IsShuffle sh)
    (hpool : (pool.map (fun ex => ex.id)).Nodup) (count : Nat)
    (excl : List String) :
    ((selectExercises sh pool count excl).map (fun ex => ex.id)).Nodup := by
  unfold selectExercises
  rw [List.map_take]
  apply List.Nodup.sublist (List.take_sublist _ _)
  have hperm := ((hsh (pool.filter (fun ex => !(excl.contains ex.id)))).map
    (fun ex => ex.id))
  rw [hperm.nodup_iff]
  exact hpool.sublist ((List.filter_sublist pool).map _)

/-- C3: when catalog identifiers are unique, no exercise identifier
appears twice in the generated plan, for every outcome of the random
selection (the generator tracks chosen ids cumulatively across the
compound, isolation and finisher selections, and the fallback draws from
a duplicate-free pool). -/
theorem generateWorkout_nodup_ids
    (db : List ExerciseTemplate)
    (sh1 sh2 sh3 shF : List ExerciseTemplate → List ExerciseTemplate)
    (newId newDate : String) (prefs : WorkoutGenerationPreferences)
    (h1 : IsShuffle sh1) (h2 : IsShuffle sh2) (h3 : IsShuffle sh3)
    (hF : IsShuffle shF)
    (hdb : (db.map (fun ex => ex.id)).Nodup) :
    (((generateWorkout db sh1 sh2 sh3 shF newId newDate prefs).exercises).map
      (fun ex => ex.id)).Nodup := by
  show ((gwFinal db sh1 sh2 sh3 shF prefs).map (fun ex => ex.id)).Nodup
  unfold gwFinal
  by_cases he : (gwFiltered db sh1 sh2 sh3 prefs).isEmpty
  · rw [if_pos he]
    exact ids_nodup_selectExercises hF
      (ids_nodup_filterExercisesByMuscles hdb _ _) _ _
  · rw [if_neg he]
    have hord : ((gwOrdered db sh1 sh2 sh3 prefs).map (fun ex => ex.id)).Nodup := by
      unfold gwOrdered
      rw [List.map_append, List.map_append, List.nodup_append,
        List.nodup_append]
      refine ⟨⟨?_, ?_, ?_⟩, ?_, ?_⟩
      · exact ids_nodup_selectExercises h1
          (ids_nodup_filterExercisesByMuscles hdb _ _) _ _
      · exact ids_nodup_selectExercises h2
          (ids_nodup_filterExercisesByMuscles hdb _ _) _ _
      · intro a ha hb
        obtain ⟨z, hz, hza⟩ := List.mem_map.mp hb
        have := id_not_used_of_mem_select h2 hz
        exact this (hza ▸ ha)
      · exact ids_nodup_selectExercises h3
          (ids_nodup_filterExercisesByMuscles hdb _ _) _ _
      · intro a ha hc
        obtain ⟨z, hz, hza⟩ := List.mem_map.mp hc
        have hnot := id_not_used_of_mem_select h3 hz
        rw [← hza] at ha
        exact hnot ha
    have hsub : List.Sublist (gwFiltered db sh1 sh2 sh3 prefs)
        (gwOrdered db sh1 sh2 sh3 prefs) := by
      unfold gwFiltered
      rcases hD : prefs.difficulty with _ | d
      · exact List.Sublist.refl _
      · exact List.filter_sublist _
    exact hord.sublist (hsub.map _)

/-- Witness for C3 on a concrete catalog with unique identifiers. -/
theorem generateWorkout_nodup_ids_witness :
    (((generateWorkout dbC2 idShuffle idShuffle idShuffle idShuffle
        "i" "d" prefsC2).exercises).map (fun ex => ex.id)).Nodup :=
  generateWorkout_nodup_ids dbC2 idShuffle idShuffle idShuffle idShuffle
    "i" "d" prefsC2 isShuffle_idShuffle isShuffle_idShuffle
    isShuffle_idShuffle isShuffle_idShuffle (by decide)

/-- C9 counterexample: `generateWorkout` never consults
`balanceExerciseSelection`.  With two requested muscle groups and a
catalog containing only Chest compounds, the balancer's quota for Back is
2, yet on the identity-shuffle outcome the plan contains no Back exercise
at all. -/
theorem generateWorkout_balancer_counterexample :
    mapGet (balanceExerciseSelection prefsC9.muscleGroups
        (gwTargetCount prefsC9)) .Back = some 2 ∧
    ((generateWorkout dbC9 idShuffle idShuffle idShuffle idShuffle
        "i" "d" prefsC9).exercises.filter
      (fun ex => ex.muscleGroup == MuscleGroup.Back)).length ≠ 2 := by
  decide

/-- C9 amended: the generator's selection is governed solely by the
per-category quotas (compound/isolation/finisher), not by per-muscle
quotas: on every outcome, each category block's length equals the minimum
of the category quota and the number of muscle-matching exercises of that
category not already chosen. -/
theorem generateWorkout_category_quota_amended
    (db : List ExerciseTemplate)
    (sh1 sh2 sh3 : List ExerciseTemplate → List ExerciseTemplate)
    (prefs : WorkoutGenerationPreferences)
    (h1 : IsShuffle sh1) (h2 : IsShuffle sh2) (h3 : IsShuffle sh3) :
    (gwCompounds db sh1 prefs).length =
      min (gwCompoundCount prefs)
        (filterExercisesByMuscles db prefs.muscleGroups (some .compound)).length ∧
    (gwIsolations db sh1 sh2 prefs).length =
      min (gwIsolationCount prefs)
        ((filterExercisesByMuscles db prefs.muscleGroups (some .isolation)).filter
          (fun ex =>
            !(((gwCompounds db sh1 prefs).map (fun e => e.id)).contains ex.id))).length ∧
    (gwFinishers db sh1 sh2 sh3 prefs).length =
      min (gwFinisherCount prefs)
        ((filterExercisesByMuscles db prefs.muscleGroups (some .finisher)).filter
          (fun ex =>
            !((((gwCompounds db sh1 prefs).map (fun e => e.id)) ++
              ((gwIsolations db sh1 sh2 prefs).map (fun e => e.id))).contains
              ex.id))).length := by
  refine ⟨?_, ?_, ?_⟩
  · unfold gwCompounds
    rw [length_selectExercises h1, filter_exclude_nil]
  · unfold gwIsolations
    rw [length_selectExercises h2]
  · unfold gwFinishers
    rw [length_selectExercises h3]

/-- Witness for the amended C9 on a concrete catalog. -/
theorem generateWorkout_category_quota_amended_witness :
    (gwCompounds dbC9 idShuffle prefsC9).length =
      min (gwCompoundCount prefsC9)
        (filterExercisesByMuscles dbC9 prefsC9.muscleGroups (some .compound)).length ∧
    (gwIsolations dbC9 idShuffle idShuffle prefsC9).length =
      min (gwIsolationCount prefsC9)
        ((filterExercisesByMuscles dbC9 prefsC9.muscleGroups (some .isolation)).filter
          (fun ex =>
            !(((gwCompounds dbC9 idShuffle prefsC9).map (fun e => e.id)).contains
              ex.id))).length ∧
    (gwFinishers dbC9 idShuffle idShuffle idShuffle prefsC9).length =
      min (gwFinisherCount prefsC9)
        ((filterExercisesByMuscles dbC9 prefsC9.muscleGroups (some .finisher)).filter
          (fun ex =>
            !((((gwCompounds dbC9 idShuffle prefsC9).map (fun e => e.id)) ++
              ((gwIsolations dbC9 idShuffle idShuffle prefsC9).map
                (fun e => e.id))).contains ex.id))).length :=
  generateWorkout_category_quota_amended dbC9 idShuffle idShuffle idShuffle
    prefsC9 isShuffle_idShuffle isShuffle_idShuffle isShuffle_idShuffle

/-- C8 counterexample: the shuffle cannot be an unweighted uniform
permutation.  The implementation's randomness comes from finitely many
`Math.random()` draws, each uniform over a power-of-two grid (53 fair
bits), so any realization is a function from a finite fair-coin tape to
outcomes and every outcome probability has the form `a / 2^k`.  On the
three-element pool `exercisePool3` (with `count = 3` and empty exclusion,
so the result is exactly the shuffled pool), uniformity would require
probability `1/6` for each of the 6 orderings, i.e. `card · 6 = 2^k` —
impossible since `3 ∤ 2^k`.  Hence no coin-driven shuffle realization
makes `selectExercises` uniform, refuting the claim as stated. -/
theorem selectExercises_uniform_counterexample :
    ¬ ∃ (k : ℕ)
        (sh : (Fin k → Bool) → List ExerciseTemplate → List ExerciseTemplate),
        (∀ c, IsShuffle (sh c)) ∧
        (∀ out : List ExerciseTemplate, out.Perm exercisePool3 →
          (Finset.univ.filter
            (fun c : Fin k → Bool =>
              selectExercises (sh c) exercisePool3 3 [] = out)).card * 6 =
            2 ^ k) := by
  rintro ⟨k, sh, hsh, huni⟩
  have h := huni exercisePool3 (List.Perm.refl _)
  have h3 : (3 : ℕ) ∣ 2 ^ k :=
    ⟨(Finset.univ.filter
        (fun c : Fin k → Bool =>
          selectExercises (sh c) exercisePool3 3 [] = exercisePool3)).card * 2,
      by omega⟩
  have h32 := Nat.Prime.dvd_of_dvd_pow Nat.prime_three h3
  norm_num at h32

/-- C8 amended: `selectExercises` removes every record whose identifier
is in the exclusion set, applies SOME permutation to the remaining
records (the random-comparator sort yields an engine-dependent
permutation, with no uniformity guarantee), and returns the first `count`
records — or fewer when the remaining pool is smaller — with no error. -/
theorem selectExercises_amended
    (sh : List ExerciseTemplate → List ExerciseTemplate)
    (pool : List ExerciseTemplate) (count : Nat) (excl : List String)
    (hsh : IsShuffle sh) :
    (selectExercises sh pool count excl).length =
      min count (pool.filter (fun ex => !(excl.contains ex.id))).length ∧
    (∀ ex ∈ selectExercises sh pool count excl,
      ex ∈ pool ∧ excl.contains ex.id = false) ∧
    ∃ shuffled : List ExerciseTemplate,
      shuffled.Perm (pool.filter (fun ex => !(excl.contains ex.id))) ∧
      selectExercises sh pool count excl = shuffled.take count := by
  refine ⟨length_selectExercises hsh pool count excl, ?_, ?_⟩
  · intro ex hex
    exact mem_selectExercises hsh hex
  · exact ⟨sh _, hsh _, rfl⟩

/-- Witness for the amended C8 at a concrete pool, count and exclusion. -/
theorem selectExercises_amended_witness :
    (selectExercises idShuffle exercisePool3 2 ["p1"]).length =
      min 2 (exercisePool3.filter
        (fun ex => !((["p1"] : List String).contains ex.id))).length :=
  (selectExercises_amended idShuffle exercisePool3 2 ["p1"]
    isShuffle_idShuffle).1

theorem mapGet_cons (q : MuscleGroup × Nat) (qs : List (MuscleGroup × Nat))
    (m : MuscleGroup) :
    mapGet (q :: qs) m = if q.1 == m then some q.2 else mapGet qs m := by
  unfold mapGet
  cases hq : (q.1 == m) <;> simp [List.find?_cons, hq]

theorem mapGet_map_overwrite {k m : MuscleGroup} (hne : m ≠ k) (v : Nat) :
    ∀ qs : List (MuscleGroup × Nat),
      mapGet (qs.map (fun p => if p.1 == k then (k, v) else p)) m = mapGet qs m := by
  intro qs
  induction qs with
  | nil => rfl
  | cons q qs ih =>
    rw [List.map_cons, mapGet_cons, mapGet_cons]
    by_cases hq : (q.1 == k) = true
    · rw [if_pos hq]
      have h1 : ((k, v).1 == m) = false := by
        simp only [beq_eq_false_iff_ne, ne_eq]
        exact fun hh => hne hh.symm
      have h2 : (q.1 == m) = false := by
        have : q.1 = k := by simpa using hq
        simp only [this, beq_eq_false_iff_ne, ne_eq]
        exact fun hh => hne hh.symm
      rw [h1, h2, if_neg (by simp), if_neg (by simp), ih]
    · rw [if_neg hq]
      cases hqm : (q.1 == m) <;> simp only [if_true, if_false, ih]

theorem mapGet_map_overwrite_self {k : MuscleGroup} (v : Nat) :
    ∀ qs : List (MuscleGroup × Nat), qs.any (fun p => p.1 == k) = true →
      mapGet (qs.map (fun p => if p.1 == k then (k, v) else p)) k = some v := by
  intro qs
  induction qs with
  | nil => intro h; simp at h
  | cons q qs ih =>
    intro h
    rw [List.map_cons, mapGet_cons]
    by_cases hq : (q.1 == k) = true
    · rw [if_pos hq]
      simp
    · rw [if_neg hq, if_neg (by simpa using hq)]
      apply ih
      simpa [List.any_cons, hq] using h

theorem mapGet_mapSet_self (d : List (MuscleGroup × Nat)) (k : MuscleGroup)
    (v : Nat) : mapGet (mapSet d k v) k = some v := by
  unfold mapSet
  by_cases hany : d.any (fun p => p.1 == k) = true
  · rw [if_pos hany]
    exact mapGet_map_overwrite_self v d hany
  · rw [if_neg hany]
    unfold mapGet
    rw [List.find?_append]
    have hnone : d.find? (fun p => p.1 == k) = none := by
      rw [List.find?_eq_none]
      intro p hp hpk
      apply hany
      rw [List.any_eq_true]
      exact ⟨p, hp, hpk⟩
    rw [hnone]
    simp [List.find?]

theorem mapGet_mapSet_other {k m : MuscleGroup} (hne : m ≠ k)
    (d : List (MuscleGroup × Nat)) (v : Nat) :
    mapGet (mapSet d k v) m = mapGet d m := by
  unfold mapSet
  by_cases hany : d.any (fun p => p.1 == k) = true
  · rw [if_pos hany]
    exact mapGet_map_overwrite hne v d
  · rw [if_neg hany]
    unfold mapGet
    rw [List.find?_append]
    have h1 : ([(k, v)].find? (fun p => p.1 == m)) = none := by
      simp only [List.find?]
      have : (k == m) = false := by
        simp only [beq_eq_false_iff_ne, ne_eq]
        exact fun hh => hne hh.symm
      simp [this]
    rw [h1]
    cases d.find? (fun p => p.1 == m) <;> rfl

theorem mapGet_writeBucket (m : MuscleGroup) (v : Nat) :
    ∀ (cat : List MuscleGroup) (d : List (MuscleGroup × Nat)),
      mapGet (writeBucket d cat v) m = if m ∈ cat then some v else mapGet d m := by
  intro cat
  induction cat with
  | nil =>
    intro d
    simp [writeBucket]
  | cons c cs ih =>
    intro d
    show mapGet (writeBucket (mapSet d c v) cs v) m = _
    rw [ih]
    by_cases hm : m ∈ cs
    · rw [if_pos hm, if_pos (List.mem_cons_of_mem c hm)]
    · rw [if_neg hm]
      by_cases hmc : m = c
      · subst hmc
        rw [mapGet_mapSet_self, if_pos (List.mem_cons_self _ _)]
      · rw [mapGet_mapSet_other hmc, if_neg (by simp [hmc, hm])]

theorem lookupBuckets_cons (v : Nat → List MuscleGroup → Nat) (k : Nat)
    (cat : List MuscleGroup) (rest : List (List MuscleGroup))
    (m : MuscleGroup) :
    lookupBuckets v k (cat :: rest) m =
      if m ∈ cat then some (v k cat) else lookupBuckets v (k + 1) rest m :=
  rfl

theorem option_elim_none_some (o : Option Nat) : o.elim none some = o := by
  cases o <;> rfl

theorem lookupBuckets_eq_none {m : MuscleGroup}
    (v : Nat → List MuscleGroup → Nat) :
    ∀ (bs : List (List MuscleGroup)) (k : Nat), (∀ cat ∈ bs, m ∉ cat) →
      lookupBuckets v k bs m = none := by
  intro bs
  induction bs with
  | nil => intro k _; rfl
  | cons cat rest ih =>
    intro k h
    unfold lookupBuckets
    rw [if_neg (h cat (List.mem_cons_self _ _))]
    exact ih (k + 1) (fun c hc => h c (List.mem_cons_of_mem _ hc))

theorem mapGet_foldl_writeBucket (m : MuscleGroup)
    (v : Nat → List MuscleGroup → Nat) :
    ∀ (bs : List (List MuscleGroup)) (k : Nat)
      (init : List (MuscleGroup × Nat)),
      List.Pairwise (fun c₁ c₂ => ∀ x ∈ c₁, x ∉ c₂) bs →
      mapGet ((bs.enumFrom k).foldl
          (fun dist p => writeBucket dist p.2 (v p.1 p.2)) init) m =
        (lookupBuckets v k bs m).elim (mapGet init m) some := by
  intro bs
  induction bs with
  | nil => intro k init _; rfl
  | cons cat rest ih =>
    intro k init h
    rw [List.pairwise_cons] at h
    show mapGet ((rest.enumFrom (k + 1)).foldl
        (fun dist p => writeBucket dist p.2 (v p.1 p.2))
        (writeBucket init cat (v k cat))) m = _
    rw [ih (k + 1) _ h.2, lookupBuckets_cons]
    by_cases hm : m ∈ cat
    · rw [if_pos hm,
        lookupBuckets_eq_none v rest (k + 1) (fun c hc => h.1 c hc m hm)]
      show mapGet (writeBucket init cat (v k cat)) m = some (v k cat)
      rw [mapGet_writeBucket, if_pos hm]
    · rw [if_neg hm]
      cases hlk : lookupBuckets v (k + 1) rest m
      · show mapGet (writeBucket init cat (v k cat)) m = mapGet init m
        rw [mapGet_writeBucket, if_neg hm]
      · rfl

theorem mapGet_append (l₁ l₂ : List (MuscleGroup × Nat)) (m : MuscleGroup) :
    mapGet (l₁ ++ l₂) m = (mapGet l₁ m).elim (mapGet l₂ m) some := by
  unfold mapGet
  rw [List.find?_append]
  cases l₁.find? (fun p => p.1 == m) <;> rfl

theorem mapGet_map_keys (m : MuscleGroup) (w : Nat) :
    ∀ cat : List MuscleGroup,
      mapGet (cat.map (fun x => (x, w))) m = if m ∈ cat then some w else none := by
  intro cat
  induction cat with
  | nil => simp [mapGet, List.find?]
  | cons c cs ih =>
    rw [List.map_cons, mapGet_cons]
    by_cases hcm : c = m
    · subst hcm
      simp
    · have hb : ((c, w).1 == m) = false := by simpa using hcm
      have hmc : m ≠ c := fun hh => hcm hh.symm
      rw [hb, if_neg (by simp), ih]
      by_cases hm : m ∈ cs <;> simp [hm, List.mem_cons, hmc]

theorem mapGet_flatMap_buckets (m : MuscleGroup)
    (w : Nat → List MuscleGroup → Nat) :
    ∀ (bs : List (List MuscleGroup)) (k : Nat),
      mapGet ((bs.enumFrom k).flatMap
          (fun p => p.2.map (fun x => (x, w p.1 p.2)))) m =
        lookupBuckets w k bs m := by
  intro bs
  induction bs with
  | nil => intro k; rfl
  | cons cat rest ih =>
    intro k
    rw [List.enumFrom_cons, List.flatMap_cons, mapGet_append, mapGet_map_keys,
      lookupBuckets_cons]
    by_cases hm : m ∈ cat
    · rw [if_pos hm, if_pos hm]
      rfl
    · rw [if_neg hm, if_neg hm]
      exact ih (k + 1)

theorem filter_cat_disjoint {s t : String} (hst : s ≠ t)
    (muscles : List MuscleGroup) :
    ∀ x ∈ muscles.filter (fun m => getMuscleCategory m == s),
      x ∉ muscles.filter (fun m => getMuscleCategory m == t) := by
  intro x hx hxt
  have h1 : getMuscleCategory x = s := by
    simpa using (List.mem_filter.mp hx).2
  have h2 : getMuscleCategory x = t := by
    simpa using (List.mem_filter.mp hxt).2
  exact hst (h1 ▸ h2)

theorem pairwise_disjoint_balanceBuckets (muscles : List MuscleGroup) :
    List.Pairwise (fun c₁ c₂ => ∀ x ∈ c₁, x ∉ c₂) (balanceBuckets muscles) := by
  unfold balanceBuckets
  apply List.Pairwise.sublist (List.filter_sublist _)
  refine List.Pairwise.cons ?_ (List.Pairwise.cons ?_ (List.Pairwise.cons ?_
    (List.Pairwise.cons (fun b hb => absurd hb (List.not_mem_nil b))
      List.Pairwise.nil)))
  · intro b hb
    simp only [List.mem_cons, List.not_mem_nil, or_false] at hb
    rcases hb with rfl | rfl | rfl
    · exact filter_cat_disjoint (by decide) muscles
    · exact filter_cat_disjoint (by decide) muscles
    · exact filter_cat_disjoint (by decide) muscles
  · intro b hb
    simp only [List.mem_cons, List.not_mem_nil, or_false] at hb
    rcases hb with rfl | rfl
    · exact filter_cat_disjoint (by decide) muscles
    · exact filter_cat_disjoint (by decide) muscles
  · intro b hb
    simp only [List.mem_cons, List.not_mem_nil, or_false] at hb
    rcases hb with rfl
    exact filter_cat_disjoint (by decide) muscles

theorem balanceBuckets_nonempty (muscles : List MuscleGroup) :
    ∀ cat ∈ balanceBuckets muscles, 1 ≤ cat.length := by
  intro cat hcat
  have h := (List.mem_filter.mp hcat).2
  simpa using h

theorem bucketValue_eq {len : Nat} (hlen : 1 ≤ len) (per rem i : Nat) :
    bucketValue per rem i len =
      per / len + (if i < rem ∧ len = 1 then 1 else 0) := by
  unfold bucketValue
  congr 1
  split_ifs <;> omega

theorem lookupBuckets_value_congr (v w : Nat → List MuscleGroup → Nat)
    (m : MuscleGroup) :
    ∀ (bs : List (List MuscleGroup)) (k : Nat),
      (∀ i cat, cat ∈ bs → v i cat = w i cat) →
      lookupBuckets v k bs m = lookupBuckets w k bs m := by
  intro bs
  induction bs with
  | nil => intro k _; rfl
  | cons cat rest ih =>
    intro k h
    rw [lookupBuckets_cons, lookupBuckets_cons]
    by_cases hm : m ∈ cat
    · rw [if_pos hm, if_pos hm, h k cat (List.mem_cons_self _ _)]
    · rw [if_neg hm, if_neg hm]
      exact ih (k + 1) (fun i c hc => h i c (List.mem_cons_of_mem _ hc))

/-- C5 counterexample: the claim's two-level division contract fails on
the code.  For `balance([Chest, Shoulders, Back], 3)` the contract gives
the first (push) bucket its remainder unit, so Chest gets 1; the
implementation's `extra / cat.count > 0.5` test drops the remainder for
the two-muscle push bucket, so Chest gets 0. -/
theorem balanceExerciseSelection_contract_counterexample :
    mapGet (balanceExerciseSelection [.Chest, .Shoulders, .Back] 3) .Chest ≠
      mapGet (balanceSpecClaim [.Chest, .Shoulders, .Back] 3) .Chest := by
  decide

/-- C5 amended: `balanceExerciseSelection` gives a single requested
muscle group the entire count; otherwise it classifies into
push/pull/legs/other buckets, drops empty buckets, and assigns each
muscle of the bucket at position `i`
`⌊⌊total/buckets⌋/bucketSize⌋` plus one extra unit exactly when `i` is
below the first-level remainder AND the bucket is a singleton — the
remainder never reaches a multi-muscle bucket (so the distributed total
can fall short of `totalCount`).  Stated as: the lookup table computed by
the code agrees pointwise with `balanceSpecAmended`, the spec-style
formulation of that rule. -/
theorem balanceExerciseSelection_amended :
    ∀ (muscles : List MuscleGroup) (total : Nat) (m : MuscleGroup),
      mapGet (balanceExerciseSelection muscles total) m =
        mapGet (balanceSpecAmended muscles total) m := by
  intro muscles total m
  rcases muscles with _ | ⟨m0, _ | ⟨m1, rest⟩⟩
  · rfl
  · rfl
  · have hfold :
        mapGet (balanceExerciseSelection (m0 :: m1 :: rest) total) m =
          (lookupBuckets
            (fun i cat =>
              bucketValue
                (total / (balanceBuckets (m0 :: m1 :: rest)).length)
                (total % (balanceBuckets (m0 :: m1 :: rest)).length)
                i cat.length)
            0 (balanceBuckets (m0 :: m1 :: rest)) m).elim
            (mapGet [] m) some :=
      mapGet_foldl_writeBucket m
        (fun i cat =>
          bucketValue
            (total / (balanceBuckets (m0 :: m1 :: rest)).length)
            (total % (balanceBuckets (m0 :: m1 :: rest)).length)
            i cat.length)
        (balanceBuckets (m0 :: m1 :: rest)) 0 []
        (pairwise_disjoint_balanceBuckets _)
    have hbind :
        mapGet (balanceSpecAmended (m0 :: m1 :: rest) total) m =
          lookupBuckets
            (fun i cat =>
              total / (balanceBuckets (m0 :: m1 :: rest)).length / cat.length +
                if i < total % (balanceBuckets (m0 :: m1 :: rest)).length ∧
                    cat.length = 1 then 1 else 0)
            0 (balanceBuckets (m0 :: m1 :: rest)) m :=
      mapGet_flatMap_buckets m
        (fun i cat =>
          total / (balanceBuckets (m0 :: m1 :: rest)).length / cat.length +
            if i < total % (balanceBuckets (m0 :: m1 :: rest)).length ∧
                cat.length = 1 then 1 else 0)
        (balanceBuckets (m0 :: m1 :: rest)) 0
    rw [hfold, hbind]
    rw [lookupBuckets_value_congr
      (fun i cat =>
        bucketValue
          (total / (balanceBuckets (m0 :: m1 :: rest)).length)
          (total % (balanceBuckets (m0 :: m1 :: rest)).length)
          i cat.length)
      (fun i cat =>
        total / (balanceBuckets (m0 :: m1 :: rest)).length / cat.length +
          if i < total % (balanceBuckets (m0 :: m1 :: rest)).length ∧
              cat.length = 1 then 1 else 0)
      m (balanceBuckets (m0 :: m1 :: rest)) 0
      (fun i cat hcat =>
        bucketValue_eq (balanceBuckets_nonempty _ cat hcat) _ _ i)]
    exact option_elim_none_some _

end GymTracker
